import Mathlib

/-!
Shallow embedding of the nrf24l01 driver. The embedding follows the second,
most complete variant in nrf24l01.go together with registers.go and softspi.go.
Opcode and register constants are taken verbatim from registers.go. The chip
side of the SPI link is simulated by a register file mapping each 5-bit
register address to the list of bytes last written there; every byte the
driver clocks out on the bus is appended to a trace, so fail-fast properties
(no bus access before validation) are expressible as trace preservation.
Machine bytes are modelled as Nat; bitwise operations never overflow on Nat,
and the Go byte complement operator is modelled with an explicit 8-bit mask.
-/

namespace NRF24

-- SPI commands accepted by the chip (registers.go)

def R_REGISTER : Nat := 0b00000000

def W_REGISTER : Nat := 0b00100000

def REGISTER_MASK : Nat := 0b00011111

def W_ACK_PAYLOAD : Nat := 0b10101000

def R_RX_PAYLOAD : Nat := 0b01100001

def W_TX_PAYLOAD : Nat := 0b10100000

def FLUSH_TX : Nat := 0b11100001

def FLUSH_RX : Nat := 0b11100010

def R_RX_PL_WID : Nat := 0b01100000

def W_TX_PAYLOAD_NOACK : Nat := 0b10110000

def NOOP : Nat := 0b11111111

-- Register map addresses and bit positions (registers.go)

def CONFIG : Nat := 0x00

def EN_CRC : Nat := 3

def CRCO : Nat := 2

def PWR_UP : Nat := 1

def EN_AA : Nat := 0x01

def SETUP_AW : Nat := 0x03

def SETUP_RETR : Nat := 0x04

def ARD : Nat := 4

def ARC : Nat := 0

def RF_CH : Nat := 0x05

def RF_SETUP : Nat := 0x06

def RF_DR : Nat := 3

def RF_PWR : Nat := 1

def STATUS : Nat := 0x07

def RX_P_NO : Nat := 1

def OBSERVE_TX : Nat := 0x08

def RX_ADDR_P0 : Nat := 0x0A

def TX_ADDR : Nat := 0x10

def RX_PW_P0 : Nat := 0x11

def DYNPD : Nat := 0x1C

def FEATURE : Nat := 0x1D

def EN_DPL : Nat := 2

def EN_ACK_PAY : Nat := 1

/-- Errors of the driver: the three NRF24 errors declared in nrf24l01.go and
the slice-size error of softspi.go. -/
inductive DriverError where
  | invalidConfig
  | invalidPipe
  | invalidAddressLength
  | txInvalidSliceSize
deriving DecidableEq, Repr

/-- Cached device state: the fields of the Device struct in nrf24l01.go that
carry configuration state (pins and the bus handle are part of the simulated
world instead). The misspelled field name is kept from the source. -/
structure Device where
  addressWidth : Nat
  address : List Nat
  channel : Nat
  payloadLength : Nat
  compatModeEnabled : Bool
  dinamicPayloadEnabled : Nat
  autoAckEnabled : Nat
deriving DecidableEq, Repr

/-- Simulated bus and chip: regs is the chip register file (bytes last written
at each 5-bit address), trace is every byte the driver has clocked out on the
bus in order (one entry per single-byte SPI transfer; read transfers clock a
filler byte), status is the status byte the chip returns while an opcode is
shifted out, rxLenReply is the byte the chip shifts back for the length query
inside PayloadLength. -/
structure World where
  regs : Nat → List Nat
  trace : List Nat
  status : Nat
  rxLenReply : Nat

/-- Pointwise update of the register file. -/
def updReg (regs : Nat → List Nat) (a : Nat) (v : List Nat) : Nat → List Nat :=
  fun x => if x = a then v else regs x

/-- Go expression x &^ m on bytes: clear in x the bits set in m. The mask is
reduced to its low 8 bits exactly as the Go byte type forces. -/
def andNot (x m : Nat) : Nat := x &&& (255 ^^^ (m % 256))

-- 8. Data and control interface (nrf24l01.go, second variant)

/-- ReadRegisterByte: clock out the read command then a NOOP byte, the chip
replying with the first stored byte of the register. -/
def ReadRegisterByte (w : World) (register : Nat) : Nat × World :=
  let command := R_REGISTER ||| (REGISTER_MASK &&& register)
  ((w.regs (REGISTER_MASK &&& register)).headD 0,
   { w with trace := w.trace ++ [command, NOOP] })

/-- WriteRegisterByte: clock out the write command then the value byte; the
chip stores the byte; the driver returns the status byte. -/
def WriteRegisterByte (w : World) (register value : Nat) : Nat × World :=
  let command := W_REGISTER ||| (REGISTER_MASK &&& register)
  (w.status,
   { w with trace := w.trace ++ [command, value],
            regs := updReg w.regs (REGISTER_MASK &&& register) [value] })

/-- WriteRegister: clock out the write command then the data bytes; the chip
stores the bytes; the driver returns the status byte. -/
def WriteRegister (w : World) (register : Nat) (data : List Nat) : Nat × World :=
  let command := W_REGISTER ||| (REGISTER_MASK &&& register)
  (w.status,
   { w with trace := w.trace ++ command :: data,
            regs := updReg w.regs (REGISTER_MASK &&& register) data })

/-- SendCommand for the non-register opcodes (payload reads and writes,
flushes): clock out the command, then the data bytes, then one filler zero
byte per byte read; returns the status byte. -/
def SendCommand (w : World) (command : Nat) (data : List Nat) (readLen : Nat) :
    Nat × World :=
  (w.status,
   { w with trace := w.trace ++ command :: (data ++ List.replicate readLen 0) })

/-- UpdateRegister: read the current byte, clear the bits in mask, OR in
value, write back, return the new byte. -/
def UpdateRegister (w : World) (register value mask : Nat) : Nat × World :=
  let p := ReadRegisterByte w register
  let rval := andNot p.1 mask ||| value
  let q := WriteRegisterByte p.2 register rval
  (rval, q.2)

/-- WriteRegisterBit in terms of UpdateRegister, as in the source. -/
def WriteRegisterBit (w : World) (register bit value : Nat) : Nat × World :=
  UpdateRegister w register (value <<< bit) (1 <<< bit)

def SetRegisterBit (w : World) (register bit : Nat) : Nat × World :=
  WriteRegisterBit w register bit 1

def ClearRegisterBit (w : World) (register bit : Nat) : Nat × World :=
  WriteRegisterBit w register bit 0

def FlushTX (w : World) : World := (SendCommand w FLUSH_TX [] 0).2

def FlushRX (w : World) : World := (SendCommand w FLUSH_RX [] 0).2

-- 6. Radio control

/-- SetChannel: clamp the channel to 125 and write it to RF_CH. -/
def SetChannel (w : World) (channel : Nat) : World :=
  let channel := min channel 125
  (WriteRegisterByte w RF_CH channel).2

/-- SetTXPower: clamp to 3 and write into bits 2:1 of RF_SETUP. -/
def SetTXPower (w : World) (power : Nat) : World :=
  let power := min power 3
  (UpdateRegister w RF_SETUP (power <<< RF_PWR) (0b11 <<< RF_PWR)).2

/-- SetMaxRetries: clamp to 15 and write into the ARC field of SETUP_RETR. -/
def SetMaxRetries (w : World) (retries : Nat) : World :=
  let retries := min retries 15
  (UpdateRegister w SETUP_RETR (retries <<< ARC) (0b1111 <<< ARC)).2

/-- SetRetryDelay: clamp to 15 and write into the ARD field of SETUP_RETR. -/
def SetRetryDelay (w : World) (delay : Nat) : World :=
  let delay := min delay 15
  (UpdateRegister w SETUP_RETR (delay <<< ARD) (0b1111 <<< ARD)).2

-- 7. Enhanced ShockBurst configuration

/-- SetRXAddress: pipes above 5 are rejected; pipes 0 and 1 take a full
address (validated against the cached width and truncated to it); pipes 2 to 5
take only the first supplied byte, with no length validation in the source
(the source indexes element 0 unconditionally; modelled with a default). -/
def SetRXAddress (d : Device) (w : World) (pipe : Nat) (address : List Nat) :
    Except DriverError Unit × World :=
  if pipe > 5 then (.error .invalidPipe, w)
  else
    let reg := RX_ADDR_P0 + pipe
    if pipe ≤ 1 then
      if address.length < d.addressWidth then (.error .invalidAddressLength, w)
      else (.ok (), (WriteRegister w reg (address.take d.addressWidth)).2)
    else
      (.ok (), (WriteRegisterByte w reg (address.headD 0)).2)

/-- SetTXAddress: validate the buffer against the cached width, then write the
whole buffer to TX_ADDR. The mirroring of the address into the pipe 0 RX
register is commented out in the source and therefore absent here. -/
def SetTXAddress (d : Device) (w : World) (address : List Nat) :
    Except DriverError Unit × World :=
  if address.length < d.addressWidth then (.error .invalidAddressLength, w)
  else (.ok (), (WriteRegister w TX_ADDR address).2)

/-- SetAutoAck: fails in compat mode; toggles the pipe bit in the EN_AA
register and in the cached bitmap. -/
def SetAutoAck (d : Device) (w : World) (pipe : Nat) (enable : Bool) :
    Except DriverError Unit × Device × World :=
  if d.compatModeEnabled then (.error .invalidConfig, d, w)
  else if pipe > 5 then (.error .invalidPipe, d, w)
  else if enable then
    let w1 := (SetRegisterBit w EN_AA pipe).2
    (.ok (), { d with autoAckEnabled := d.autoAckEnabled ||| (1 <<< pipe) }, w1)
  else
    let w1 := (ClearRegisterBit w EN_AA pipe).2
    (.ok (), { d with autoAckEnabled := andNot d.autoAckEnabled (1 <<< pipe) }, w1)

/-- SetDynamicPayload: enabling sets the feature bit, forces auto-ack on the
pipe (the error result of SetAutoAck is discarded, as in the source) and sets
the pipe bit in DYNPD; disabling clears the pipe bit and, when the resulting
DYNPD byte is zero, clears the feature bit. -/
def SetDynamicPayload (d : Device) (w : World) (pipe : Nat) (enable : Bool) :
    Except DriverError Unit × Device × World :=
  if pipe > 5 then (.error .invalidPipe, d, w)
  else if enable then
    let w1 := (SetRegisterBit w FEATURE EN_DPL).2
    let r := SetAutoAck d w1 pipe true
    let w2 := (SetRegisterBit r.2.2 DYNPD pipe).2
    (.ok (), r.2.1, w2)
  else
    let p := ClearRegisterBit w DYNPD pipe
    if p.1 = 0 then (.ok (), d, (ClearRegisterBit p.2 FEATURE EN_DPL).2)
    else (.ok (), d, p.2)

/-- SetPayloadLength as written in the source: the length is not validated
(the validation is only a TODO comment) and the target register is computed
from RX_ADDR_P0, not RX_PW_P0. The source body also ends without the return
statement its error signature requires; the fall-through is modelled as
success. -/
def SetPayloadLength (d : Device) (w : World) (pipe len : Nat) :
    Except DriverError Unit × World :=
  if pipe > 5 then (.error .invalidPipe, w)
  else
    let register := RX_ADDR_P0 + pipe
    (.ok (), (WriteRegisterByte w register len).2)

/-- SetCRCLength: length 0 is only accepted in compat mode and clears the
EN_CRC bit; length 1 writes the short code; every other length writes the
long code. -/
def SetCRCLength (d : Device) (w : World) (len : Nat) :
    Except DriverError Unit × World :=
  let mask := (1 <<< EN_CRC) ||| (1 <<< CRCO)
  if len < 1 then
    if !d.compatModeEnabled then (.error .invalidConfig, w)
    else (.ok (), (ClearRegisterBit w CONFIG EN_CRC).2)
  else if len = 1 then
    (.ok (), (UpdateRegister w CONFIG (1 <<< EN_CRC) mask).2)
  else
    (.ok (), (UpdateRegister w CONFIG ((1 <<< EN_CRC) ||| (1 <<< CRCO)) mask).2)

/-- PayloadLength: with no dynamic pipe enabled return the cached length
(the source spells the field test as a boolean negation of the bitmap field;
modelled as the bitmap being zero). In dynamic mode clock out R_RX_PAYLOAD
and a NOOP byte, the chip replying with the length; a length above 32
triggers an RX flush and yields 0. -/
def PayloadLength (d : Device) (w : World) : Nat × World :=
  if d.dinamicPayloadEnabled = 0 then (d.payloadLength, w)
  else
    let w1 := { w with trace := w.trace ++ [R_RX_PAYLOAD, NOOP] }
    let len := w.rxLenReply
    if len > 32 then (0, FlushRX w1)
    else (len, w1)

/-- ReadPayload: resolve the pending length; 0 aborts immediately; otherwise
issue the RX payload opcode reading exactly that many bytes and decode the
pipe from bits 3:1 of the status byte. The result is the pair of pipe and
byte count. -/
def ReadPayload (d : Device) (w : World) : (Nat × Nat) × World :=
  let p := PayloadLength d w
  if p.1 = 0 then ((0, 0), p.2)
  else
    let s := SendCommand p.2 R_RX_PAYLOAD [] p.1
    (((s.1 >>> RX_P_NO) &&& 0b111, p.1), s.2)

-- softspi.go: the bit-banged transport

/-- BBSPI.Tx from softspi.go. The two buffers are Options, none standing for
a nil Go slice. The result pairs the bus trace of the call (one entry per
single-byte Transfer, each of which clocks 8 bits) with either the error or
the bytes placed into the read buffer; reply gives the byte the peer shifts
back on the i-th Transfer of the call. Read-only transfers clock out zero
bytes, as in the source. -/
def BBSPI.Tx (w r : Option (List Nat)) (reply : Nat → Nat) :
    List Nat × Except DriverError (Option (List Nat)) :=
  match w, r with
  | none, none => ([], .ok none)
  | none, some rl =>
      (List.replicate rl.length 0, .ok (some ((List.range rl.length).map reply)))
  | some wl, none => (wl, .ok none)
  | some wl, some rl =>
      if wl.length ≠ rl.length then ([], .error .txInvalidSliceSize)
      else (wl, .ok (some ((List.range wl.length).map reply)))

-- Concrete sample states used by witnesses and counterexamples

/-- A world whose simulated registers all hold a single zero byte. -/
def w0 : World := { regs := fun _ => [0], trace := [], status := 8, rxLenReply := 0 }

/-- The same world with the chip reporting a dynamic length of 40. -/
def w40 : World := { w0 with rxLenReply := 40 }

/-- A freshly constructed device: every cached field at its zero value. -/
def d0 : Device :=
  { addressWidth := 0, address := [], channel := 0, payloadLength := 0,
    compatModeEnabled := false, dinamicPayloadEnabled := 0, autoAckEnabled := 0 }

def dW5 : Device := { d0 with addressWidth := 5 }

def dDyn : Device := { d0 with dinamicPayloadEnabled := 1 }

def dAck : Device := { d0 with addressWidth := 5, autoAckEnabled := 1 }

def dCompat : Device := { d0 with compatModeEnabled := true }

-- Helper lemmas (shared)

/-- Bits at or above 8 of a byte are clear. -/
theorem testBit_of_byte {m i : Nat} (hm : m < 256) (h : 8 ≤ i) :
    m.testBit i = false :=
  Nat.testBit_lt_two_pow
    (lt_of_lt_of_le hm (le_trans (by norm_num) (Nat.pow_le_pow_right (by norm_num) h)))

/-- Bits at or above 4 of a nibble are clear. -/
theorem testBit_of_nibble {m i : Nat} (hm : m < 16) (h : 4 ≤ i) :
    m.testBit i = false :=
  Nat.testBit_lt_two_pow
    (lt_of_lt_of_le hm (le_trans (by norm_num) (Nat.pow_le_pow_right (by norm_num) h)))

/-- Clearing a mask and overlaying a value is stable under a second pass. -/
theorem andNot_absorb (a b m : Nat) :
    andNot (andNot a m ||| b) m ||| b = andNot a m ||| b := by
  unfold andNot
  apply Nat.eq_of_testBit_eq
  intro i
  simp only [Nat.testBit_or, Nat.testBit_and]
  cases a.testBit i <;> cases b.testBit i <;>
    cases (255 ^^^ m % 256).testBit i <;> rfl

/-- One unfolded step of UpdateRegister: the returned byte, the two framed
transactions on the trace, and the register file update. -/
theorem UpdateRegister_run (w : World) (register value mask : Nat) :
    UpdateRegister w register value mask =
      (andNot ((w.regs (REGISTER_MASK &&& register)).headD 0) mask ||| value,
       { w with
          trace := w.trace ++
            [R_REGISTER ||| (REGISTER_MASK &&& register), NOOP,
             W_REGISTER ||| (REGISTER_MASK &&& register),
             andNot ((w.regs (REGISTER_MASK &&& register)).headD 0) mask ||| value],
          regs := updReg w.regs (REGISTER_MASK &&& register)
            [andNot ((w.regs (REGISTER_MASK &&& register)).headD 0) mask ||| value] }) := by
  unfold UpdateRegister ReadRegisterByte WriteRegisterByte
  simp

/-- C9: UpdateRegister — read the current byte, clear the bits in mask, OR in
value, write back, return the new byte — applied twice with identical
arguments is idempotent: the second application leaves the simulated register
file in the same state and returns the same byte as the first. -/
theorem updateRegister_idempotent (w : World) (register value mask : Nat) :
    (UpdateRegister (UpdateRegister w register value mask).2 register value mask).2.regs
      = (UpdateRegister w register value mask).2.regs ∧
    (UpdateRegister (UpdateRegister w register value mask).2 register value mask).1
      = (UpdateRegister w register value mask).1 := by
  simp only [UpdateRegister_run]
  simp [updReg, andNot_absorb]
  funext x
  by_cases hx : x = REGISTER_MASK &&& register <;> simp [updReg, hx]

/-- C8: the transport exchange with both buffers non-nil, non-empty and of
different lengths fails with the slice-size error and performs zero bus
activity; the write-only and the read-only shapes never produce an error. -/
theorem tx_size_mismatch_spec (wb rb : List Nat) (ro : Option (List Nat))
    (reply : Nat → Nat) :
    (wb ≠ [] → rb ≠ [] → wb.length ≠ rb.length →
      BBSPI.Tx (some wb) (some rb) reply = ([], .error .txInvalidSliceSize)) ∧
    (∀ e, (BBSPI.Tx (some wb) none reply).2 ≠ .error e) ∧
    (∀ e, (BBSPI.Tx none ro reply).2 ≠ .error e) := by
  refine ⟨fun _ _ h => ?_, fun e => ?_, fun e => ?_⟩
  · simp [BBSPI.Tx, h]
  · simp [BBSPI.Tx]
  · cases ro <;> simp [BBSPI.Tx]

/-- Witness for C8 at a concrete mismatched pair of buffers. -/
theorem tx_size_mismatch_spec_witness :
    BBSPI.Tx (some [1]) (some [0, 0]) (fun _ => 0) =
      ([], .error .txInvalidSliceSize) :=
  (tx_size_mismatch_spec [1] [0, 0] none (fun _ => 0)).1
    (by decide) (by decide) (by decide)

/-- C4 (code bug): SetPayloadLength accepts length 0 and writes the length
byte into the pipe RX address register (address 0x0A plus pipe) instead of
the payload length register (address 0x11 plus pipe), which stays untouched. -/
theorem setPayloadLength_bug_eval :
    (SetPayloadLength d0 w0 0 0).1 = .ok () ∧
    (SetPayloadLength d0 w0 0 5).2.regs RX_ADDR_P0 = [5] ∧
    (SetPayloadLength d0 w0 0 5).2.regs RX_PW_P0 = [0] ∧
    RX_ADDR_P0 ≠ RX_PW_P0 :=
  ⟨rfl, by decide, by decide, by decide⟩

/-- C6 (code bug): in dynamic mode the driver issues the payload read opcode
0x61 as the width query instead of the width query opcode 0x60; with the chip
reporting a dynamic length of 40 the resolved length is 0 and an RX flush is
issued. -/
theorem payloadLength_opcode_bug_eval :
    (PayloadLength dDyn w40).1 = 0 ∧
    (PayloadLength dDyn w40).2.trace = [R_RX_PAYLOAD, NOOP, FLUSH_RX] ∧
    R_RX_PAYLOAD = 0x61 ∧ R_RX_PL_WID = 0x60 ∧ R_RX_PAYLOAD ≠ R_RX_PL_WID :=
  ⟨by decide, by decide, rfl, rfl, by decide⟩

-- Nibble arithmetic helpers for the SETUP_RETR register

theorem tb15 (i : Nat) : Nat.testBit 15 i = decide (i < 4) := by
  rw [show (15 : Nat) = 2 ^ 4 - 1 by norm_num, Nat.testBit_two_pow_sub_one]

theorem tb240 (i : Nat) :
    Nat.testBit 240 i = (decide (4 ≤ i) && decide (i < 8)) := by
  rw [show (240 : Nat) = 15 <<< 4 by decide]
  rw [Nat.testBit_shiftLeft, tb15]
  by_cases h : 4 ≤ i
  · simp only [h, decide_True, Bool.true_and]
    exact decide_eq_decide.mpr (by omega)
  · simp [h]

/-- Overlaying a nibble on a cleared low nibble stores exactly the nibble. -/
theorem nibbleLow (s v : Nat) (hv : v < 16) : ((s &&& 240) ||| v) &&& 15 = v := by
  apply Nat.eq_of_testBit_eq
  intro i
  simp only [Nat.testBit_and, Nat.testBit_or, tb15, tb240]
  by_cases h : i < 4
  · simp [h, Nat.not_le.mpr h]
  · simp [h, testBit_of_nibble hv (Nat.not_lt.mp h)]

/-- Writing the low nibble of a byte leaves the high nibble unchanged. -/
theorem nibbleLowHigh (s v : Nat) (hv : v < 16) (hs : s < 256) :
    ((s &&& 240) ||| v) >>> 4 = s >>> 4 := by
  apply Nat.eq_of_testBit_eq
  intro i
  simp only [Nat.testBit_shiftRight, Nat.testBit_and, Nat.testBit_or, tb240]
  rw [testBit_of_nibble hv (Nat.le_add_right 4 i)]
  by_cases h : i < 4
  · simp [show 4 ≤ 4 + i by omega, show 4 + i < 8 by omega]
  · simp [testBit_of_byte hs (show 8 ≤ 4 + i by omega)]

/-- Overlaying a shifted nibble on a cleared high nibble stores the nibble. -/
theorem nibbleHigh (s v : Nat) : ((s &&& 15) ||| (v <<< 4)) >>> 4 = v := by
  apply Nat.eq_of_testBit_eq
  intro i
  simp only [Nat.testBit_shiftRight, Nat.testBit_and, Nat.testBit_or,
    Nat.testBit_shiftLeft, tb15]
  simp [show ¬ (4 + i < 4) by omega, show 4 ≤ 4 + i by omega,
    show 4 + i - 4 = i by omega]

/-- Writing the high nibble of a byte leaves the low nibble unchanged. -/
theorem nibbleHighLow (s v : Nat) :
    ((s &&& 15) ||| (v <<< 4)) &&& 15 = s &&& 15 := by
  apply Nat.eq_of_testBit_eq
  intro i
  simp only [Nat.testBit_and, Nat.testBit_or, Nat.testBit_shiftLeft, tb15]
  by_cases h : i < 4
  · simp [h, show ¬ (4 ≤ i) by omega]
  · simp [h]

/-- The short and the long CRC code differ at the CRCO bit whatever the
previous CONFIG byte was. -/
theorem crc_bits_distinct (c : Nat) : andNot c 12 ||| 8 ≠ andNot c 12 ||| 12 := by
  intro h
  have h2 : (andNot c 12 ||| 8).testBit 2 = (andNot c 12 ||| 12).testBit 2 := by
    rw [h]
  simp only [andNot, Nat.testBit_or, Nat.testBit_and] at h2
  rw [show Nat.testBit (255 ^^^ 12 % 256) 2 = false by decide,
      show Nat.testBit 8 2 = false by decide,
      show Nat.testBit 12 2 = true by decide] at h2
  simp at h2

/-- C5 (amended): SetChannel clamps to at most 125 and writes the byte to
RF_CH; SetTXPower clamps to at most 3 and writes it into bits 2:1 of
RF_SETUP; SetMaxRetries and SetRetryDelay clamp to [0,15] and write into the
low and high nibble respectively of SETUP_RETR, each leaving the other
nibble unchanged; none of the four can reject its argument. -/
theorem clamped_setters_spec (w : World) (c p n m : Nat)
    (hs : (w.regs SETUP_RETR).headD 0 < 256) :
    (SetChannel w c).regs RF_CH = [min c 125] ∧
    (SetTXPower w p).regs RF_SETUP =
      [andNot ((w.regs RF_SETUP).headD 0) (3 <<< RF_PWR) ||| (min p 3 <<< RF_PWR)] ∧
    ((SetMaxRetries w n).regs SETUP_RETR).headD 0 &&& 15 = min n 15 ∧
    ((SetMaxRetries w n).regs SETUP_RETR).headD 0 >>> 4 =
      ((w.regs SETUP_RETR).headD 0) >>> 4 ∧
    ((SetRetryDelay w m).regs SETUP_RETR).headD 0 >>> 4 = min m 15 ∧
    ((SetRetryDelay w m).regs SETUP_RETR).headD 0 &&& 15 =
      ((w.regs SETUP_RETR).headD 0) &&& 15 := by
  have hk4 : REGISTER_MASK &&& SETUP_RETR = SETUP_RETR := by decide
  have hk5 : REGISTER_MASK &&& RF_CH = RF_CH := by decide
  have hk6 : REGISTER_MASK &&& RF_SETUP = RF_SETUP := by decide
  have e1 : ((SetMaxRetries w n).regs SETUP_RETR).headD 0 =
      ((w.regs SETUP_RETR).headD 0 &&& 240) ||| min n 15 := by
    simp [SetMaxRetries, UpdateRegister_run, updReg, hk4, andNot, ARC]
  have e2 : ((SetRetryDelay w m).regs SETUP_RETR).headD 0 =
      ((w.regs SETUP_RETR).headD 0 &&& 15) ||| (min m 15 <<< 4) := by
    simp [SetRetryDelay, UpdateRegister_run, updReg, hk4, andNot, ARD]
  refine ⟨?_, ?_, ?_, ?_, ?_, ?_⟩
  · simp [SetChannel, WriteRegisterByte, updReg, hk5]
  · simp [SetTXPower, UpdateRegister_run, updReg, hk6, RF_PWR]
  · rw [e1]; exact nibbleLow _ _ (by omega)
  · rw [e1]; exact nibbleLowHigh _ _ (by omega) hs
  · rw [e2]; exact nibbleHigh _ _
  · rw [e2]; exact nibbleHighLow _ _

/-- Witness for C5 at concrete arguments: channel 200 clamps to 125. -/
theorem clamped_setters_spec_witness :
    (SetChannel w0 200).regs RF_CH = [min 200 125] :=
  (clamped_setters_spec w0 200 9 5 7 (by decide)).1

/-- C5 counterexample: from an all-zero register file SetMaxRetries 5 stores
byte 5 (the low nibble) in SETUP_RETR, not byte 80 (the high nibble) as the
claim asserts; SetRetryDelay 5 stores byte 80 (the high nibble). -/
theorem setMaxRetries_low_nibble_counterexample :
    (SetMaxRetries w0 5).regs SETUP_RETR = [5] ∧ (5 : Nat) ≠ 80 ∧
    (SetRetryDelay w0 5).regs SETUP_RETR = [80] :=
  ⟨by decide, by decide, by decide⟩

/-- C1 (amended): SetCRCLength with length 0 fails with InvalidConfig and
changes nothing unless compat mode is enabled, in which case it succeeds by
clearing only the CRC enable bit; length 1 succeeds and writes CRC enable
with the short code; every length of at least 2 succeeds and writes CRC
enable with the long code; the length 1 and length 2 patterns are distinct. -/
theorem setCRCLength_cases (d : Device) (w : World) (n : Nat) :
    (n = 0 → d.compatModeEnabled = false →
      SetCRCLength d w n = (.error .invalidConfig, w)) ∧
    (n = 0 → d.compatModeEnabled = true →
      (SetCRCLength d w n).1 = .ok () ∧
      ((SetCRCLength d w n).2.regs CONFIG).headD 0 =
        andNot ((w.regs CONFIG).headD 0) (1 <<< EN_CRC)) ∧
    (n = 1 →
      (SetCRCLength d w n).1 = .ok () ∧
      ((SetCRCLength d w n).2.regs CONFIG).headD 0 =
        andNot ((w.regs CONFIG).headD 0) 12 ||| 8) ∧
    (2 ≤ n →
      (SetCRCLength d w n).1 = .ok () ∧
      ((SetCRCLength d w n).2.regs CONFIG).headD 0 =
        andNot ((w.regs CONFIG).headD 0) 12 ||| 12) ∧
    ((SetCRCLength d w 1).2.regs CONFIG).headD 0 ≠
      ((SetCRCLength d w 2).2.regs CONFIG).headD 0 := by
  have hk0 : REGISTER_MASK &&& CONFIG = CONFIG := by decide
  have e1 : ((SetCRCLength d w 1).2.regs CONFIG).headD 0 =
      andNot ((w.regs CONFIG).headD 0) 12 ||| 8 := by
    simp [SetCRCLength, UpdateRegister_run, updReg, hk0, EN_CRC, CRCO]
  have e2 : ((SetCRCLength d w 2).2.regs CONFIG).headD 0 =
      andNot ((w.regs CONFIG).headD 0) 12 ||| 12 := by
    simp [SetCRCLength, UpdateRegister_run, updReg, hk0, EN_CRC, CRCO]
  refine ⟨fun hn hc => ?_, fun hn hc => ?_, fun hn => ?_, fun hn => ?_, ?_⟩
  · subst hn
    simp [SetCRCLength, hc]
  · subst hn
    refine ⟨by simp [SetCRCLength, hc], ?_⟩
    simp [SetCRCLength, hc, ClearRegisterBit, WriteRegisterBit,
      UpdateRegister_run, updReg, hk0, EN_CRC]
  · subst hn
    exact ⟨by simp [SetCRCLength], e1⟩
  · have hn1 : ¬ n < 1 := by omega
    have hn2 : ¬ n = 1 := by omega
    refine ⟨by simp [SetCRCLength, hn1, hn2], ?_⟩
    simp [SetCRCLength, hn1, hn2, UpdateRegister_run, updReg, hk0, EN_CRC, CRCO]
  · rw [e1, e2]
    exact crc_bits_distinct _

/-- Witness for C1: with compat mode off, length 0 fails and the world is
untouched; length 1 succeeds. -/
theorem setCRCLength_cases_witness :
    SetCRCLength d0 w0 0 = (.error .invalidConfig, w0) :=
  (setCRCLength_cases d0 w0 0).1 rfl rfl

/-- C1 counterexample: the claim says every length of at least 3 fails with
InvalidConfig, but length 3 succeeds and stores the long code. -/
theorem setCRCLength_three_succeeds :
    (SetCRCLength d0 w0 3).1 = .ok () ∧
    ((SetCRCLength d0 w0 3).2.regs CONFIG).headD 0 = 12 :=
  ⟨rfl, by decide⟩

/-- C2 (amended): for pipes 0 and 1 and for SetTXAddress, address buffers
shorter than the cached address width are rejected with InvalidAddressLength
before any bus access, leaving the registers and the trace untouched; for
pipes 2 to 5 SetRXAddress performs no length validation and writes the first
supplied byte to the pipe address register. -/
theorem address_length_validation (d : Device) (w : World) (pipe : Nat)
    (address : List Nat) :
    (pipe ≤ 1 → address.length < d.addressWidth →
      SetRXAddress d w pipe address = (.error .invalidAddressLength, w)) ∧
    (address.length < d.addressWidth →
      SetTXAddress d w address = (.error .invalidAddressLength, w)) ∧
    (2 ≤ pipe → pipe ≤ 5 →
      (SetRXAddress d w pipe address).1 = .ok () ∧
      (SetRXAddress d w pipe address).2.regs (RX_ADDR_P0 + pipe) =
        [address.headD 0]) := by
  refine ⟨fun h1 h2 => ?_, fun h => ?_, fun h2 h5 => ?_⟩
  · have hng : ¬ pipe > 5 := by omega
    simp [SetRXAddress, hng, h1, h2]
  · simp [SetTXAddress, h]
  · have hng : ¬ pipe > 5 := by omega
    have hn1 : ¬ pipe ≤ 1 := by omega
    have hmask : REGISTER_MASK &&& (RX_ADDR_P0 + pipe) = RX_ADDR_P0 + pipe := by
      interval_cases pipe <;> decide
    exact ⟨by simp [SetRXAddress, hng, hn1],
      by simp [SetRXAddress, hng, hn1, WriteRegisterByte, updReg, hmask]⟩

/-- Witness for C2: a pipe 0 write with an empty address and width 5 is
rejected with the world untouched. -/
theorem address_length_validation_witness :
    SetRXAddress dW5 w0 0 [] = (.error .invalidAddressLength, w0) :=
  (address_length_validation dW5 w0 0 []).1 (by decide) (by decide)

/-- C2 counterexample: on pipe 2 a one-byte address, far shorter than the
configured width 5, is accepted and bus traffic happens. -/
theorem setRXAddress_pipe2_skips_validation :
    List.length [7] < dW5.addressWidth ∧
    (SetRXAddress dW5 w0 2 [7]).1 = .ok () ∧
    (SetRXAddress dW5 w0 2 [7]).2.trace ≠ [] :=
  ⟨by decide, rfl, by decide⟩

/-- C7 (code bug): with auto-ack enabled on pipe 0, SetTXAddress writes only
TX_ADDR; the pipe 0 RX address register keeps its previous value, because the
mirroring step is commented out in the source although the function
documentation promises it. -/
theorem setTXAddress_no_mirror_eval :
    (SetTXAddress dAck w0 [1, 2, 3, 4, 5]).1 = .ok () ∧
    (SetTXAddress dAck w0 [1, 2, 3, 4, 5]).2.regs TX_ADDR = [1, 2, 3, 4, 5] ∧
    (SetTXAddress dAck w0 [1, 2, 3, 4, 5]).2.regs RX_ADDR_P0 = [0] ∧
    Nat.testBit dAck.autoAckEnabled 0 = true :=
  ⟨rfl, by decide, by decide, by decide⟩

/-- A six-bit value is zero exactly when each of its six bits is clear. -/
theorem eq_zero_iff_low_bits (z : Nat) (hz : z < 64) :
    z = 0 ↔ ∀ p, p ≤ 5 → z.testBit p = false := by
  constructor
  · intro h p _
    simp [h]
  · intro h
    apply Nat.eq_of_testBit_eq
    intro i
    rw [Nat.zero_testBit]
    by_cases hi : i ≤ 5
    · exact h i hi
    · have h6 : 6 ≤ i := by omega
      have h64 : (64 : Nat) ≤ 2 ^ i :=
        le_trans (by norm_num) (Nat.pow_le_pow_right (by norm_num) h6)
      exact Nat.testBit_lt_two_pow (lt_of_lt_of_le hz h64)

/-- C3: enabling dynamic payload on a pipe sets the global feature bit,
forces auto-ack on that pipe both in the chip register and in the cached
bitmap, and sets that pipe bit in DYNPD; disabling clears only that pipe
DYNPD bit, leaves the auto-ack register and cache untouched, and clears the
global feature bit exactly when no pipe retains its DYNPD bit. Hypotheses:
the pipe is valid, compat mode is off (the source never assigns the compat
flag, so this holds in every reachable state), and the simulated DYNPD byte
uses only the six pipe bits, as the hardware register does. -/
theorem setDynamicPayload_spec (d : Device) (w : World) (pipe : Nat)
    (hp : pipe ≤ 5) (hc : d.compatModeEnabled = false)
    (hd : (w.regs DYNPD).headD 0 < 64) :
    ((SetDynamicPayload d w pipe true).1 = .ok () ∧
      Nat.testBit ((((SetDynamicPayload d w pipe true).2.2).regs FEATURE).headD 0)
        EN_DPL = true ∧
      Nat.testBit ((((SetDynamicPayload d w pipe true).2.2).regs EN_AA).headD 0)
        pipe = true ∧
      Nat.testBit ((SetDynamicPayload d w pipe true).2.1.autoAckEnabled)
        pipe = true ∧
      Nat.testBit ((((SetDynamicPayload d w pipe true).2.2).regs DYNPD).headD 0)
        pipe = true) ∧
    ((SetDynamicPayload d w pipe false).1 = .ok () ∧
      (SetDynamicPayload d w pipe false).2.1 = d ∧
      ((SetDynamicPayload d w pipe false).2.2).regs EN_AA = w.regs EN_AA ∧
      (((SetDynamicPayload d w pipe false).2.2).regs DYNPD).headD 0 =
        andNot ((w.regs DYNPD).headD 0) (1 <<< pipe) ∧
      (((SetDynamicPayload d w pipe false).2.2).regs FEATURE).headD 0 =
        (if andNot ((w.regs DYNPD).headD 0) (1 <<< pipe) = 0
          then andNot ((w.regs FEATURE).headD 0) (1 <<< EN_DPL)
          else (w.regs FEATURE).headD 0) ∧
      (andNot ((w.regs DYNPD).headD 0) (1 <<< pipe) = 0 ↔
        ∀ p, p ≤ 5 →
          Nat.testBit (andNot ((w.regs DYNPD).headD 0) (1 <<< pipe)) p = false)) := by
  have hng : ¬ pipe > 5 := by omega
  have hkF : REGISTER_MASK &&& FEATURE = FEATURE := by decide
  have hkA : REGISTER_MASK &&& EN_AA = EN_AA := by decide
  have hkD : REGISTER_MASK &&& DYNPD = DYNPD := by decide
  have hFD : FEATURE ≠ DYNPD := by decide
  have hAD : EN_AA ≠ DYNPD := by decide
  have hAF : EN_AA ≠ FEATURE := by decide
  have hDF : DYNPD ≠ FEATURE := by decide
  have hFA : FEATURE ≠ EN_AA := by decide
  have hDA : DYNPD ≠ EN_AA := by decide
  constructor
  · refine ⟨?_, ?_, ?_, ?_, ?_⟩ <;>
      simp [SetDynamicPayload, SetAutoAck, SetRegisterBit, WriteRegisterBit,
        UpdateRegister_run, updReg, hng, hc, hkF, hkA, hkD, hFD, hAD, hAF,
        hDF, hFA, hDA]
  · have hz0 : andNot ((w.regs DYNPD).headD 0) (1 <<< pipe) ≤
        (w.regs DYNPD).headD 0 := Nat.and_le_left
    refine ⟨?_, ?_, ?_, ?_, ?_, ?_⟩
    · simp [SetDynamicPayload, ClearRegisterBit, WriteRegisterBit,
        UpdateRegister_run, updReg, hng, hkF, hkD, hFD]
      split <;> rfl
    · simp [SetDynamicPayload, ClearRegisterBit, WriteRegisterBit,
        UpdateRegister_run, updReg, hng, hkF, hkD, hFD]
      split <;> rfl
    · simp [SetDynamicPayload, ClearRegisterBit, WriteRegisterBit,
        UpdateRegister_run, updReg, hng, hkF, hkD, hFD]
      split <;> simp [updReg, hAD, hAF]
    · simp [SetDynamicPayload, ClearRegisterBit, WriteRegisterBit,
        UpdateRegister_run, updReg, hng, hkF, hkD, hFD]
      split <;> simp [updReg, hDF]
    · simp [SetDynamicPayload, ClearRegisterBit, WriteRegisterBit,
        UpdateRegister_run, updReg, hng, hkF, hkD, hFD]
      split <;> rename_i hcond <;> simp [hcond, updReg, hFD, hDF]
    · exact eq_zero_iff_low_bits _ (lt_of_le_of_lt hz0 hd)

/-- Witness for C3: enabling then disabling dynamic payload on pipe 3 of a
fresh device with a zeroed register file. -/
theorem setDynamicPayload_spec_witness :
    (SetDynamicPayload d0 w0 3 true).1 = .ok () ∧
    Nat.testBit ((((SetDynamicPayload d0 w0 3 true).2.2).regs FEATURE).headD 0)
      EN_DPL = true ∧
    Nat.testBit ((((SetDynamicPayload d0 w0 3 true).2.2).regs EN_AA).headD 0)
      3 = true ∧
    Nat.testBit ((SetDynamicPayload d0 w0 3 true).2.1.autoAckEnabled) 3 = true ∧
    Nat.testBit ((((SetDynamicPayload d0 w0 3 true).2.2).regs DYNPD).headD 0)
      3 = true :=
  (setDynamicPayload_spec d0 w0 3 (by decide) rfl (by decide)).1

/-- C10: PayloadLength never resolves to more than 32 (a dynamic length above
32 yields 0 after an RX flush), so ReadPayload never reads more than 32 bytes
into its destination, and a resolved length of 0 makes ReadPayload return
immediately without issuing the RX payload opcode. The hypothesis on the
cached fixed-mode length holds in every reachable state: the source never
assigns the payloadLength field, so it stays 0. -/
theorem payloadLength_bounded (d : Device) (w : World)
    (h : d.payloadLength ≤ 32) :
    (PayloadLength d w).1 ≤ 32 ∧
    (ReadPayload d w).1.2 ≤ 32 ∧
    (d.dinamicPayloadEnabled ≠ 0 → 32 < w.rxLenReply →
      (PayloadLength d w).1 = 0 ∧
      (PayloadLength d w).2.trace = w.trace ++ [R_RX_PAYLOAD, NOOP, FLUSH_RX]) ∧
    ((PayloadLength d w).1 = 0 →
      ReadPayload d w = ((0, 0), (PayloadLength d w).2)) := by
  have hb : (PayloadLength d w).1 ≤ 32 := by
    unfold PayloadLength
    by_cases hdyn : d.dinamicPayloadEnabled = 0
    · simp [hdyn, h]
    · by_cases hl : w.rxLenReply > 32
      · simp [hdyn, hl]
      · simp [hdyn, hl]
        omega
  refine ⟨hb, ?_, fun hdyn hl => ?_, fun hz => ?_⟩
  · unfold ReadPayload
    by_cases hz : (PayloadLength d w).1 = 0
    · simp [hz]
    · simp [hz, hb]
  · have hnd : ¬ d.dinamicPayloadEnabled = 0 := hdyn
    constructor
    · unfold PayloadLength
      simp [hnd, hl]
    · unfold PayloadLength FlushRX SendCommand
      simp [hnd, hl]
  · unfold ReadPayload
    simp [hz]

/-- Witness for C10 in dynamic mode with a corrupt reported length. -/
theorem payloadLength_bounded_witness :
    (PayloadLength dDyn w40).1 ≤ 32 :=
  (payloadLength_bounded dDyn w40 (by decide)).1

end NRF24
